import Mathlib

/-!
Shallow embedding of the thirteenk image-hosting backend
(`src/services/image_service.py`, `src/services/download_service.py`,
`app/services/storage_service.py`, `app/utils/image_processing.py`,
`app/api/v1/endpoints/downloads.py`) and proofs of the specification
claims about the ingestion pipeline and download accounting.

Documents are modelled as typed records (the fields of
`app/models/image.py` / `app/models/download.py`), the Mongo collections
as lists of documents with a fresh-id counter, and the GCS buckets as
association lists from blob name to bytes.  External faults (database
unreachable, storage write rejected) are injected through explicit
boolean parameters standing for "this driver call raised"; a Python
exception is an `Except.error` carrying the mapped error kind, and a
method that mutates state before raising returns the state it had
mutated so far together with the error, mirroring exception semantics.
-/

namespace Thirteenk

/-- The error taxonomy as realised by `app/core/exceptions.py`:
`ImageNotFoundException` (404), `StorageException` (500), and a raw
driver/database exception that no service-level handler converted. -/
inductive AppError where
  | notFound
  | storage (detail : String)
  | dbError
  deriving Repr, DecidableEq

/-- An image metadata document (`app/models/image.py`, class `Image`).
Timestamps are abstract ticks (`Nat`); the Mongo `_id` is a `Nat`. -/
structure ImageDoc where
  id : Nat
  name : String
  description : String
  filename : String
  thumbnail_url : String
  hd_url : String
  file_size : Nat
  content_type : String
  downloads : Nat
  tags : List String
  created_at : Nat
  updated_at : Option Nat
  is_featured : Bool
  deriving Repr, DecidableEq

/-- A download-event document (`app/models/download.py`, class `Download`). -/
structure DownloadDoc where
  id : Nat
  image_id : Nat
  ip_address : String
  user_agent : String
  referer : Option String
  country_code : Option String
  timestamp : Nat
  deriving Repr, DecidableEq

/-- The metadata store: the `images` and `downloads` collections plus a
counter supplying the next inserted `_id` for each. -/
structure DB where
  images : List ImageDoc
  downloads : List DownloadDoc
  nextImageId : Nat
  nextDownloadId : Nat
  deriving Repr, DecidableEq

/-- Client metadata captured by the download endpoint
(`request_info` in `app/api/v1/endpoints/downloads.py`). -/
structure RequestInfo where
  ip_address : String
  user_agent : String
  referer : Option String
  country_code : Option String
  deriving Repr, DecidableEq

/-- `db.images.find_one({"_id": ObjectId(image_id)})`: the first document
of the collection with the requested id, if any. -/
def find_one (db : DB) (image_id : Nat) : Option ImageDoc :=
  db.images.find? (fun d => d.id == image_id)

/-- `ImageService.get_image` (`src/services/image_service.py` 60-69).
The whole body sits in a `try` whose `except Exception` re-raises
`ImageNotFoundException`, so a missing document AND any driver fault
(`dbFault = true`, the `find_one` call raising) both surface as
`notFound`. -/
def get_image (dbFault : Bool) (db : DB) (image_id : Nat) :
    Except AppError ImageDoc :=
  if dbFault then .error .notFound
  else
    match find_one db image_id with
    | none => .error .notFound
    | some doc => .ok doc

/-- `DownloadService.record_download` (`src/services/download_service.py`
18-45), success path: `update_one` with `$inc {downloads: 1}` (matching
at most the documents with the given id, silently matching none when the
image is absent), then `insert_one` of the download document built from
`request_info`. -/
def record_download (db : DB) (image_id : Nat) (req : RequestInfo)
    (now : Nat) : DB × DownloadDoc :=
  let images1 := db.images.map
    (fun d => if d.id == image_id then { d with downloads := d.downloads + 1 } else d)
  let dl : DownloadDoc :=
    { id := db.nextDownloadId
      image_id := image_id
      ip_address := req.ip_address
      user_agent := req.user_agent
      referer := req.referer
      country_code := req.country_code
      timestamp := now }
  ({ db with
      images := images1
      downloads := dl :: db.downloads
      nextDownloadId := db.nextDownloadId + 1 }, dl)

/-- `DownloadService.get_total_downloads` (47-57): the `$group`/`$sum`
aggregation yields no document over an empty collection — mapped to 0 by
`result[0]["total"] if result else 0` — and otherwise one document whose
`total` is the sum of the `downloads` field. -/
def get_total_downloads (db : DB) : Nat :=
  match db.images with
  | [] => 0
  | _ => (db.images.map (fun d => d.downloads)).sum

/-- `DownloadService.get_image_downloads` (59-69):
`image["downloads"] if image else 0`. -/
def get_image_downloads (db : DB) (image_id : Nat) : Nat :=
  match find_one db image_id with
  | some image => image.downloads
  | none => 0

/-- The `POST /downloads/{image_id}` endpoint `download_image`
(`app/api/v1/endpoints/downloads.py` 12-37) — the spec's
`recordDownload(imageId, clientInfo) -> downloadUrl`: check existence via
`ImageService.get_image` (its exception aborts the request before any
write), then `record_download`, then return the image's `hd_url`.  The
final state is returned alongside the outcome. -/
def download_image (dbFault : Bool) (db : DB) (image_id : Nat)
    (req : RequestInfo) (now : Nat) : DB × Except AppError String :=
  match get_image dbFault db image_id with
  | .error e => (db, .error e)
  | .ok image =>
      let (db1, _) := record_download db image_id req now
      (db1, .ok image.hd_url)

/-! ## Thumbnailer (`app/utils/image_processing.py`) -/

/-- A decoded PIL image: dimensions and the detected source format
(`image.format`, `None` when PIL cannot tell). -/
structure PILImage where
  width : Nat
  height : Nat
  format : Option String
  deriving Repr, DecidableEq

/-- The output of `resize_image`: the dimensions and encoding format of
the image written to the returned `BytesIO`. -/
structure OutImage where
  width : Nat
  height : Nat
  format : String
  deriving Repr, DecidableEq

/-- Thumbnailing failure: `PIL.Image.open` raised on undecodable bytes
(`UnidentifiedImageError`), propagated uncaught by `resize_image`. -/
inductive ThumbErr where
  | thumbnailFailure
  deriving Repr, DecidableEq

/-- `ratio = min(max_size[0] / width, max_size[1] / height)`
(`app/utils/image_processing.py` line 31), in exact arithmetic. -/
def resize_ratio (width height mw mh : Nat) : ℚ :=
  min ((mw : ℚ) / (width : ℚ)) ((mh : ℚ) / (height : ℚ))

/-- `resize_image(image_bytes, max_size, format)`
(`app/utils/image_processing.py` 6-44): decode (failure propagates),
default the format to the detected one falling back to JPEG, resize to
`(int(width*ratio), int(height*ratio))` only when `ratio < 1`.
Decoding is an explicit parameter standing for `PIL.Image.open`. -/
def resize_image (decode : List Nat → Option PILImage)
    (image_bytes : List Nat) (mw mh : Nat) (fmt : Option String) :
    Except ThumbErr OutImage :=
  match decode image_bytes with
  | none => .error .thumbnailFailure
  | some image =>
      let format := fmt.getD (image.format.getD "JPEG")
      let ratio := resize_ratio image.width image.height mw mh
      if ratio < 1 then
        .ok { width := (⌊(image.width : ℚ) * ratio⌋).toNat
              height := (⌊(image.height : ℚ) * ratio⌋).toNat
              format := format }
      else
        .ok { width := image.width, height := image.height, format := format }

/-! ## Object storage (`app/services/storage_service.py`)

The two GCS buckets are association lists from blob name to the stored
bytes.  Each external call that can fail (a bucket write, a bucket
delete, PIL decoding inside `generate_thumbnail`) is controlled by an
explicit parameter of the service call. -/

/-- The two logical buckets of the object store. -/
structure Storage where
  originals : List (String × List Nat)
  thumbnails : List (String × List Nat)
  deriving Repr, DecidableEq

/-- The dictionary returned by `StorageService.upload_image`. -/
structure StorageData where
  filename : String
  hd_url : String
  content_type : String
  file_size : Nat
  deriving Repr, DecidableEq

/-- An in-memory upload (`UploadFile`): original client filename,
content type and bytes. -/
structure UploadFileM where
  filename : String
  content_type : String
  content : List Nat
  deriving Repr, DecidableEq

/-- `StorageService.upload_image` (`app/services/storage_service.py`
47-79): store the bytes in the originals bucket under the generated
unique key `genName` (uuid4 plus the original extension, abstracted to
an arbitrary supplied fresh name) and return the public URL; a rejected
write (`uploadOk = false`) raises `StorageException`. -/
def upload_image (uploadOk : Bool) (genName : String) (st : Storage)
    (file : UploadFileM) : Storage × Except AppError StorageData :=
  if uploadOk then
    ({ st with originals := (genName, file.content) :: st.originals },
     .ok { filename := genName
           hd_url := "https://storage.googleapis.com/originals/" ++ genName
           content_type := file.content_type
           file_size := file.content.length })
  else (st, .error (.storage "upload rejected"))

/-- `StorageService.generate_thumbnail` (81-115): decode the bytes
(PIL), thumbnail to at most 200 x 200, upload under `thumb_<filename>`
to the thumbnails bucket, return the public URL.  Both a decode failure
and a rejected thumbnail write raise `StorageException`.  The thumbnail
bytes stored are the re-encoded output, represented by the resized
dimensions' encoding `thumbBytes`. -/
def thumbBytes (image : PILImage) : List Nat :=
  [image.width, image.height]

def generate_thumbnail (decode : List Nat → Option PILImage)
    (thumbUploadOk : Bool) (st : Storage) (filename : String)
    (content : List Nat) : Storage × Except AppError String :=
  match decode content with
  | none => (st, .error (.storage "cannot identify image"))
  | some image =>
      if thumbUploadOk then
        let thumbnail_filename := "thumb_" ++ filename
        ({ st with thumbnails := (thumbnail_filename, thumbBytes image) :: st.thumbnails },
         .ok ("https://storage.googleapis.com/thumbnails/" ++ thumbnail_filename))
      else (st, .error (.storage "thumbnail upload rejected"))

/-- `StorageService.delete_image` (117-136): delete the original blob if
it exists, then the `thumb_` blob if it exists — an absent blob is
skipped, not an error — and any GCS fault (`deleteOrigOk` /
`deleteThumbOk` false for the respective call) raises
`StorageException`, leaving blobs already deleted gone. -/
def storage_delete_image (deleteOrigOk deleteThumbOk : Bool)
    (st : Storage) (filename : String) : Storage × Except AppError Bool :=
  if deleteOrigOk then
    let st1 : Storage :=
      { st with originals := st.originals.filter (fun p => p.1 != filename) }
    if deleteThumbOk then
      let thumbnail_filename := "thumb_" ++ filename
      ({ st1 with thumbnails := st1.thumbnails.filter (fun p => p.1 != thumbnail_filename) },
       .ok true)
    else (st1, .error (.storage "thumbnail delete failed"))
  else (st, .error (.storage "original delete failed"))

/-! ## Image service (`src/services/image_service.py`) -/

/-- The metadata fields assembled by the `POST /images` endpoint
(`image_data` in `src/api/v1/endpoints/images.py` 50-58). -/
structure ImageData where
  name : String
  description : String
  tags : List String
  is_featured : Bool
  deriving Repr, DecidableEq

/-- `ImageService.create_image` (71-109): upload the original, generate
and upload the thumbnail from the same bytes, insert the metadata
document with `downloads = 0` and `created_at = now`.  Each step's
failure aborts the rest (the `except` clause re-raises unchanged); state
already written stays written.  `insertOk = false` stands for
`insert_one` raising a driver error. -/
def create_image (uploadOk : Bool) (genName : String)
    (decode : List Nat → Option PILImage) (thumbUploadOk insertOk : Bool)
    (st : Storage) (db : DB) (file : UploadFileM) (image_data : ImageData)
    (now : Nat) : (Storage × DB) × Except AppError ImageDoc :=
  match upload_image uploadOk genName st file with
  | (st1, .error e) => ((st1, db), .error e)
  | (st1, .ok storage_data) =>
      match generate_thumbnail decode thumbUploadOk st1 storage_data.filename
          file.content with
      | (st2, .error e) => ((st2, db), .error e)
      | (st2, .ok thumbnail_url) =>
          let new_image : ImageDoc :=
            { id := db.nextImageId
              name := image_data.name
              description := image_data.description
              filename := storage_data.filename
              thumbnail_url := thumbnail_url
              hd_url := storage_data.hd_url
              file_size := storage_data.file_size
              content_type := storage_data.content_type
              downloads := 0
              tags := image_data.tags
              created_at := now
              updated_at := none
              is_featured := image_data.is_featured }
          if insertOk then
            ((st2, { db with
                images := new_image :: db.images
                nextImageId := db.nextImageId + 1 }), .ok new_image)
          else ((st2, db), .error .dbError)

/-- The patch schema `ImageUpdate` (`app/schemas/image.py` 18-22): four
optional fields, each `None` by default. -/
structure ImageUpdate where
  name : Option String
  description : Option String
  tags : Option (List String)
  is_featured : Option Bool
  deriving Repr, DecidableEq

/-- The `$set` document of `ImageService.update_image` applied to one
stored document: `updated_at = now` plus every non-`None` patch field. -/
def apply_update (patch : ImageUpdate) (now : Nat) (d : ImageDoc) : ImageDoc :=
  { d with
      updated_at := some now
      name := patch.name.getD d.name
      description := patch.description.getD d.description
      tags := patch.tags.getD d.tags
      is_featured := patch.is_featured.getD d.is_featured }

/-- `ImageService.update_image` (111-135): `get_image` (raising
`ImageNotFoundException` when absent), `update_one` with the `$set`
document, then `get_image` again to return the refreshed record. -/
def update_image (dbFault : Bool) (db : DB) (image_id : Nat)
    (patch : ImageUpdate) (now : Nat) : DB × Except AppError ImageDoc :=
  match get_image dbFault db image_id with
  | .error e => (db, .error e)
  | .ok _ =>
      let images1 := db.images.map
        (fun d => if d.id == image_id then apply_update patch now d else d)
      let db1 : DB := { db with images := images1 }
      match get_image dbFault db1 image_id with
      | .error e => (db1, .error e)
      | .ok image => (db1, .ok image)

/-- `ImageService.delete_image` (137-154): `get_image` (raising
`ImageNotFoundException` when absent), `StorageService.delete_image` on
the stored filename (its `StorageException` propagates before the
metadata delete is reached), then `delete_one` on the metadata record,
returning `deleted_count > 0`. -/
def delete_image (dbFault deleteOrigOk deleteThumbOk : Bool)
    (st : Storage) (db : DB) (image_id : Nat) :
    (Storage × DB) × Except AppError Bool :=
  match get_image dbFault db image_id with
  | .error e => ((st, db), .error e)
  | .ok image =>
      match storage_delete_image deleteOrigOk deleteThumbOk st image.filename with
      | (st1, .error e) => ((st1, db), .error e)
      | (st1, .ok _) =>
          let db1 : DB :=
            { db with images := db.images.filter (fun d => d.id != image_id) }
          ((st1, db1), .ok (db.images.any (fun d => d.id == image_id)))

/-! ## Listing and counting (`src/services/image_service.py` 22-58) -/

/-- The Mongo query built by `get_images` / `count_images`: a `$all`
clause when `tags` is truthy (non-`None` and non-empty), an equality
clause when `is_featured` is not `None`. -/
def matches_query (tags : Option (List String)) (is_featured : Option Bool)
    (d : ImageDoc) : Bool :=
  (match tags with
   | some ts => ts.isEmpty || ts.all (fun t => d.tags.contains t)
   | none => true)
  && (match is_featured with
      | some b => d.is_featured == b
      | none => true)

/-- `ImageService.get_images` (22-42): filter, sort by `created_at`
descending, skip, limit. -/
def get_images (db : DB) (skip limit : Nat) (tags : Option (List String))
    (is_featured : Option Bool) : List ImageDoc :=
  ((((db.images.filter (matches_query tags is_featured)).mergeSort
      (fun a b => decide (b.created_at ≤ a.created_at))).drop skip).take limit)

/-- `ImageService.count_images` (44-58): `count_documents` with the same
query and no skip or limit. -/
def count_images (db : DB) (tags : Option (List String))
    (is_featured : Option Bool) : Nat :=
  (db.images.filter (matches_query tags is_featured)).length

/-- `n` sequential successful `record_download` calls for the same image
(the spec's "N sequential successful recordDownload(id) calls"). -/
def record_downloads_iter (db : DB) (image_id : Nat) (req : RequestInfo)
    (now : Nat) : Nat → DB
  | 0 => db
  | n + 1 =>
      record_downloads_iter (record_download db image_id req now).1
        image_id req now n

/-! ## Concrete fixtures used to instantiate the theorems. -/

def exReq : RequestInfo :=
  { ip_address := "203.0.113.7", user_agent := "curl/8.0", referer := none
    country_code := none }

def exEmptyDb : DB := { images := [], downloads := [], nextImageId := 0, nextDownloadId := 0 }

def exImg : ImageDoc :=
  { id := 5, name := "cat", description := "a cat", filename := "f.png"
    thumbnail_url := "https://storage.googleapis.com/thumbnails/thumb_f.png"
    hd_url := "https://storage.googleapis.com/originals/f.png"
    file_size := 10, content_type := "image/png", downloads := 7
    tags := ["a", "b"], created_at := 3, updated_at := none, is_featured := true }

def exDb : DB := { images := [exImg], downloads := [], nextImageId := 6, nextDownloadId := 0 }

def exFile : UploadFileM :=
  { filename := "up.png", content_type := "image/png", content := [1, 2, 3] }

def exData : ImageData :=
  { name := "n", description := "", tags := ["a"], is_featured := false }

def exDecode : List Nat → Option PILImage := fun _ => some ⟨500, 300, some "PNG"⟩

def exDecodeNone : List Nat → Option PILImage := fun _ => none

def exDecodeSmall : List Nat → Option PILImage := fun _ => some ⟨150, 100, none⟩

def exNewImg : ImageDoc :=
  { id := 0, name := "n", description := "", filename := "g.png"
    thumbnail_url := "https://storage.googleapis.com/thumbnails/thumb_g.png"
    hd_url := "https://storage.googleapis.com/originals/g.png"
    file_size := 3, content_type := "image/png", downloads := 0
    tags := ["a"], created_at := 4, updated_at := none, is_featured := false }

def exStorage2 : Storage :=
  { originals := [("g.png", [1, 2, 3])], thumbnails := [("thumb_g.png", [500, 300])] }

def exCreateDb2 : DB :=
  { images := [exNewImg], downloads := [], nextImageId := 1, nextDownloadId := 0 }

def exImgA : ImageDoc :=
  { exImg with id := 1, tags := ["a", "b"], created_at := 10, is_featured := true }

def exImgB : ImageDoc :=
  { exImg with id := 2, tags := ["a"], created_at := 20, is_featured := false }

def exImgC : ImageDoc :=
  { exImg with id := 3, tags := ["b", "a", "c"], created_at := 5, is_featured := true }

def exListDb : DB :=
  { images := [exImgA, exImgB, exImgC], downloads := [], nextImageId := 4
    nextDownloadId := 0 }

/-! # Theorems -/

/-- Auxiliary: `find_one` commutes with an id-preserving update applied
to the documents matching the looked-up id. -/
theorem find_one_map_ite (images : List ImageDoc) (image_id : Nat)
    (f : ImageDoc → ImageDoc) (hf : ∀ d, (f d).id = d.id) :
    (images.map (fun d => if d.id == image_id then f d else d)).find?
        (fun d => d.id == image_id)
      = (images.find? (fun d => d.id == image_id)).map f := by
  induction images with
  | nil => rfl
  | cons x xs ih =>
    by_cases hx : (x.id == image_id) = true
    · have h1 : ((f x).id == image_id) = true := by rw [hf]; exact hx
      rw [List.map_cons, if_pos hx,
        List.find?_cons_of_pos (p := fun d : ImageDoc => d.id == image_id) _ h1,
        List.find?_cons_of_pos (p := fun d : ImageDoc => d.id == image_id) _ hx]
      rfl
    · rw [List.map_cons, if_neg hx,
        List.find?_cons_of_neg (p := fun d : ImageDoc => d.id == image_id) _ hx,
        List.find?_cons_of_neg (p := fun d : ImageDoc => d.id == image_id) _ hx, ih]

/-- Auxiliary: after one `record_download` for an existing image, that
image's document is still found, with the counter one higher. -/
theorem find_one_record_download (db : DB) (image_id : Nat)
    (req : RequestInfo) (now : Nat) (img : ImageDoc)
    (h : find_one db image_id = some img) :
    find_one (record_download db image_id req now).1 image_id
      = some { img with downloads := img.downloads + 1 } := by
  have key := find_one_map_ite db.images image_id
    (fun d => { d with downloads := d.downloads + 1 }) (fun d => rfl)
  simp only [find_one, record_download] at h ⊢
  rw [key, h]
  rfl

/-- C1: for every nonexistent image id the download endpoint fails with
`NotFound` and leaves the store untouched — it inserts no
`DownloadEvent` and mutates no download counter (the existence check via
`get_image` aborts the request before `record_download` runs). -/
theorem download_missing_image_spec (dbFault : Bool) (db : DB)
    (image_id : Nat) (req : RequestInfo) (now : Nat)
    (habs : find_one db image_id = none) :
    download_image dbFault db image_id req now
      = (db, .error .notFound) := by
  cases dbFault <;> simp [download_image, get_image, habs]

/-- Witness for C1 at the empty store. -/
theorem download_missing_image_witness :
    download_image false exEmptyDb 3 exReq 11 = (exEmptyDb, .error .notFound) :=
  download_missing_image_spec false exEmptyDb 3 exReq 11 rfl

/-- C6: `get_image_downloads` returns the stored counter of an existing
image and 0 — not a `NotFound` failure — for a missing one. -/
theorem get_image_downloads_lenient (db : DB) (image_id : Nat) :
    (find_one db image_id = none → get_image_downloads db image_id = 0)
    ∧ (∀ img, find_one db image_id = some img →
        get_image_downloads db image_id = img.downloads) := by
  refine ⟨fun h => ?_, fun img h => ?_⟩
  · simp [get_image_downloads, h]
  · simp [get_image_downloads, h]

/-- Witness for C6: a store holding one image with counter 7. -/
theorem get_image_downloads_lenient_witness :
    get_image_downloads exDb 9 = 0 ∧ get_image_downloads exDb 5 = 7 :=
  ⟨(get_image_downloads_lenient exDb 9).1 rfl,
   (get_image_downloads_lenient exDb 5).2 exImg rfl⟩

/-- C10: over a store with no image records the `$group` aggregation
produces no result document, which `get_total_downloads` maps to 0. -/
theorem get_total_downloads_empty (db : DB) (h : db.images = []) :
    get_total_downloads db = 0 := by
  simp [get_total_downloads, h]

/-- Witness for C10 at the empty store. -/
theorem get_total_downloads_empty_witness : get_total_downloads exEmptyDb = 0 :=
  get_total_downloads_empty exEmptyDb rfl

/-- C9: a record freshly persisted by `create_image` carries download
counter 0 (and is the record `find_one` then retrieves), and `n`
sequential successful `record_download(id)` calls raise
`get_image_downloads(id)` by exactly `n`. -/
theorem counter_monotonicity_spec :
    (∀ uploadOk genName decode thumbUploadOk insertOk st db file data now st2 db2 img,
        create_image uploadOk genName decode thumbUploadOk insertOk st db file data now
          = ((st2, db2), .ok img) →
        img.downloads = 0 ∧ find_one db2 img.id = some img)
    ∧ (∀ db image_id req now img n, find_one db image_id = some img →
        get_image_downloads (record_downloads_iter db image_id req now n) image_id
          = get_image_downloads db image_id + n) := by
  constructor
  · intro uploadOk genName decode thumbUploadOk insertOk st db file data now st2 db2 img h
    cases uploadOk with
    | false => simp [create_image, upload_image] at h
    | true =>
      cases hdec : decode file.content with
      | none => simp [create_image, upload_image, generate_thumbnail, hdec] at h
      | some pimg =>
        cases thumbUploadOk with
        | false => simp [create_image, upload_image, generate_thumbnail, hdec] at h
        | true =>
          cases insertOk with
          | false => simp [create_image, upload_image, generate_thumbnail, hdec] at h
          | true =>
            simp only [create_image, upload_image, generate_thumbnail, hdec,
              if_true] at h
            injection h with h1 h2
            injection h1 with h3 hdb
            injection h2 with himg
            subst hdb
            subst himg
            exact ⟨rfl, by simp [find_one]⟩
  · intro db image_id req now img n h
    induction n generalizing db img with
    | zero => simp [record_downloads_iter]
    | succ n ih =>
      have hstep := find_one_record_download db image_id req now img h
      rw [record_downloads_iter, ih _ _ hstep]
      simp only [get_image_downloads, h, hstep]
      omega

/-- Witness for C9: a concrete creation, and three downloads recorded
against the store holding `exImg` (counter 7 before, 10 after). -/
theorem counter_monotonicity_witness :
    (exNewImg.downloads = 0 ∧ find_one exCreateDb2 exNewImg.id = some exNewImg)
    ∧ get_image_downloads (record_downloads_iter exDb 5 exReq 11 3) 5
        = get_image_downloads exDb 5 + 3 :=
  ⟨counter_monotonicity_spec.1 true "g.png" exDecode true true ⟨[], []⟩
      exEmptyDb exFile exData 4 exStorage2 exCreateDb2 exNewImg rfl,
   counter_monotonicity_spec.2 exDb 5 exReq 11 exImg 3 rfl⟩

/-- C7: `update_image` fails `NotFound` (store untouched) when the
record is absent; otherwise it stores and returns a record carrying the
non-null patch fields (name, description, tags, featured flag), the
fresh updated-timestamp, and the old filename, URLs and download
counter. -/
theorem update_image_spec (db : DB) (image_id : Nat) (patch : ImageUpdate)
    (now : Nat) :
    (find_one db image_id = none →
        update_image false db image_id patch now = (db, .error .notFound))
    ∧ (∀ img, find_one db image_id = some img →
        ∃ db1 u, update_image false db image_id patch now = (db1, .ok u)
          ∧ u.name = patch.name.getD img.name
          ∧ u.description = patch.description.getD img.description
          ∧ u.tags = patch.tags.getD img.tags
          ∧ u.is_featured = patch.is_featured.getD img.is_featured
          ∧ u.updated_at = some now
          ∧ u.filename = img.filename
          ∧ u.thumbnail_url = img.thumbnail_url
          ∧ u.hd_url = img.hd_url
          ∧ u.downloads = img.downloads
          ∧ find_one db1 image_id = some u) := by
  constructor
  · intro h
    simp [update_image, get_image, h]
  · intro img h
    have key := find_one_map_ite db.images image_id (apply_update patch now)
      (fun d => rfl)
    set images1 := db.images.map
      (fun d => if d.id == image_id then apply_update patch now d else d) with himages1
    have hfind : find_one { db with images := images1 } image_id
        = some (apply_update patch now img) := by
      simp only [find_one] at h ⊢
      rw [himages1, key, h]
      rfl
    refine ⟨{ db with images := images1 },
      apply_update patch now img, ?_, rfl, rfl, rfl, rfl, rfl, rfl, rfl, rfl,
      rfl, hfind⟩
    simp only [update_image, get_image, h, hfind]
    rfl

/-- Witness for C7: patching name and featured flag of `exImg`, and a
patch against a missing id. -/
theorem update_image_spec_witness :
    update_image false exDb 9 ⟨some "dog", none, none, some false⟩ 12
      = (exDb, .error .notFound)
    ∧ ∃ db1 u,
        update_image false exDb 5 ⟨some "dog", none, none, some false⟩ 12
          = (db1, .ok u)
        ∧ u.name = (some "dog").getD exImg.name
        ∧ u.description = (Option.none).getD exImg.description
        ∧ u.tags = (Option.none).getD exImg.tags
        ∧ u.is_featured = (some false).getD exImg.is_featured
        ∧ u.updated_at = some 12
        ∧ u.filename = exImg.filename
        ∧ u.thumbnail_url = exImg.thumbnail_url
        ∧ u.hd_url = exImg.hd_url
        ∧ u.downloads = exImg.downloads
        ∧ find_one db1 5 = some u :=
  ⟨(update_image_spec exDb 9 ⟨some "dog", none, none, some false⟩ 12).1 rfl,
   (update_image_spec exDb 5 ⟨some "dog", none, none, some false⟩ 12).2 exImg rfl⟩

/-- C8: with a non-empty tag filter, `get_images` returns only records
containing ALL listed tags, in descending creation-timestamp order, and
`count_images` — which takes no skip or limit argument at all — equals
the number of records matching the same filter. -/
theorem list_images_spec (db : DB) (skip limit : Nat) (ts : List String)
    (feat : Option Bool) (hts : ts ≠ []) :
    (∀ d ∈ get_images db skip limit (some ts) feat, ∀ t ∈ ts, t ∈ d.tags)
    ∧ List.Sorted (fun a b : ImageDoc => b.created_at ≤ a.created_at)
        (get_images db skip limit (some ts) feat)
    ∧ count_images db (some ts) feat
        = db.images.countP
            (fun d => ts.all (fun t => d.tags.contains t)
              && match feat with
                 | some b => d.is_featured == b
                 | none => true) := by
  have hempty : ts.isEmpty = false := by
    cases ts with
    | nil => exact absurd rfl hts
    | cons a l => rfl
  refine ⟨?_, ?_, ?_⟩
  · intro d hd t ht
    have hd1 : d ∈ (db.images.filter (matches_query (some ts) feat)).mergeSort
        (fun a b => decide (b.created_at ≤ a.created_at)) :=
      List.mem_of_mem_drop (List.mem_of_mem_take hd)
    rw [List.mem_mergeSort] at hd1
    have hq := (List.mem_filter.mp hd1).2
    simp only [matches_query, hempty, Bool.false_or, Bool.and_eq_true,
      List.all_eq_true] at hq
    have := hq.1 t ht
    simpa using this
  · have hs : ((db.images.filter (matches_query (some ts) feat)).mergeSort
        (fun a b => decide (b.created_at ≤ a.created_at))).Pairwise
          (fun a b => decide (b.created_at ≤ a.created_at) = true) :=
      List.sorted_mergeSort
        (fun a b c h1 h2 => by
          simp only [decide_eq_true_eq] at h1 h2 ⊢
          omega)
        (fun a b => by
          simp only [Bool.or_eq_true, decide_eq_true_eq]
          omega)
        (db.images.filter (matches_query (some ts) feat))
    have hsub : List.Sublist (get_images db skip limit (some ts) feat)
        ((db.images.filter (matches_query (some ts) feat)).mergeSort
          (fun a b => decide (b.created_at ≤ a.created_at))) := by
      simp only [get_images]
      exact (List.take_sublist _ _).trans (List.drop_sublist _ _)
    exact (hs.sublist hsub).imp (fun h => by simpa using h)
  · simp only [count_images, List.countP_eq_length_filter]
    exact congrArg List.length
      (List.filter_congr (fun d hd => by simp [matches_query, hempty]))

/-- Witness for C8: a three-image store filtered by tags `a` and `b`. -/
theorem list_images_spec_witness :
    (∀ d ∈ get_images exListDb 0 20 (some ["a", "b"]) none,
        ∀ t ∈ (["a", "b"] : List String), t ∈ d.tags)
    ∧ List.Sorted (fun a b : ImageDoc => b.created_at ≤ a.created_at)
        (get_images exListDb 0 20 (some ["a", "b"]) none)
    ∧ count_images exListDb (some ["a", "b"]) none
        = exListDb.images.countP
            (fun d => (["a", "b"] : List String).all (fun t => d.tags.contains t)
              && match (none : Option Bool) with
                 | some b => d.is_featured == b
                 | none => true) :=
  list_images_spec exListDb 0 20 ["a", "b"] none (List.cons_ne_nil _ _)

/-- C5: `delete_image` fails `NotFound` when the record is absent
(nothing touched); when a blob deletion fails with `StorageFailure` the
metadata record remains in the store untouched; and on the successful
path — for EVERY storage state, so also when either blob is already
absent — the blobs are removed without error and then the metadata
record is deleted. -/
theorem delete_image_spec (deleteOrigOk deleteThumbOk : Bool) (st : Storage)
    (db : DB) (image_id : Nat) :
    (find_one db image_id = none →
        delete_image false deleteOrigOk deleteThumbOk st db image_id
          = ((st, db), .error .notFound))
    ∧ (∀ img, find_one db image_id = some img →
        deleteOrigOk = false ∨ deleteThumbOk = false →
        ∃ st1 s, delete_image false deleteOrigOk deleteThumbOk st db image_id
          = ((st1, db), .error (.storage s)))
    ∧ (∀ img, find_one db image_id = some img →
        delete_image false true true st db image_id
          = (({ originals := st.originals.filter (fun p => p.1 != img.filename)
                thumbnails := st.thumbnails.filter
                  (fun p => p.1 != ("thumb_" ++ img.filename)) },
              { db with images := db.images.filter (fun d => d.id != image_id) }),
             .ok true)) := by
  refine ⟨fun h => ?_, fun img h hfail => ?_, fun img h => ?_⟩
  · simp [delete_image, get_image, h]
  · rcases hfail with hf | hf
    · subst hf
      exact ⟨st, "original delete failed",
        by simp [delete_image, get_image, h, storage_delete_image]⟩
    · subst hf
      cases deleteOrigOk with
      | false =>
          exact ⟨st, "original delete failed",
            by simp [delete_image, get_image, h, storage_delete_image]⟩
      | true =>
          exact ⟨{ st with originals :=
              st.originals.filter (fun p => p.1 != img.filename) },
            "thumbnail delete failed",
            by simp [delete_image, get_image, h, storage_delete_image]⟩
  · have h1 : db.images.find? (fun d => d.id == image_id) = some img := h
    have hany : db.images.any (fun d => d.id == image_id) = true :=
      List.any_eq_true.mpr
        ⟨img, List.mem_of_find?_eq_some h1,
         List.find?_some (p := fun d : ImageDoc => d.id == image_id) h1⟩
    simp [delete_image, get_image, h, storage_delete_image, hany]

/-- Witness for C5: deletion of a missing id, a failed blob deletion
keeping the record, and a successful deletion (with the thumbnail blob
already absent from storage). -/
theorem delete_image_spec_witness :
    delete_image false true true exStorage2 exDb 9
      = ((exStorage2, exDb), .error .notFound)
    ∧ (∃ st1 s, delete_image false false true exStorage2 exDb 5
        = ((st1, exDb), .error (.storage s)))
    ∧ delete_image false true true exStorage2 exDb 5
      = (({ originals := exStorage2.originals.filter (fun p => p.1 != exImg.filename)
            thumbnails := exStorage2.thumbnails.filter
              (fun p => p.1 != ("thumb_" ++ exImg.filename)) },
          { exDb with images := exDb.images.filter (fun d => d.id != 5) }),
         .ok true) :=
  ⟨(delete_image_spec true true exStorage2 exDb 9).1 rfl,
   (delete_image_spec false true exStorage2 exDb 5).2.1 exImg rfl (Or.inl rfl),
   (delete_image_spec true true exStorage2 exDb 5).2.2 exImg rfl⟩

/-- C2: `create_image` runs upload, thumbnail, metadata-insert in that
order with no retry; each step's failure aborts the rest and is returned
to the caller unchanged; after a failure in the thumbnail step (either
of its two failure modes) or in the metadata insert, the already
uploaded original blob is still in the originals bucket and no
`ImageRecord` was persisted (the metadata store is exactly the initial
one). -/
theorem create_image_failure_spec (genName : String)
    (decode : List Nat → Option PILImage) (thumbUploadOk insertOk : Bool)
    (st : Storage) (db : DB) (file : UploadFileM) (data : ImageData)
    (now : Nat) :
    (create_image false genName decode thumbUploadOk insertOk st db file data now
        = ((st, db), .error (.storage "upload rejected")))
    ∧ (decode file.content = none →
        create_image true genName decode thumbUploadOk insertOk st db file data now
          = (({ st with originals := (genName, file.content) :: st.originals }, db),
             .error (.storage "cannot identify image")))
    ∧ (∀ pimg, decode file.content = some pimg →
        create_image true genName decode false insertOk st db file data now
          = (({ st with originals := (genName, file.content) :: st.originals }, db),
             .error (.storage "thumbnail upload rejected")))
    ∧ (∀ pimg, decode file.content = some pimg →
        create_image true genName decode true false st db file data now
          = (({ originals := (genName, file.content) :: st.originals
                thumbnails := ("thumb_" ++ genName, thumbBytes pimg) :: st.thumbnails },
              db),
             .error .dbError)) := by
  refine ⟨?_, fun hdec => ?_, fun pimg hdec => ?_, fun pimg hdec => ?_⟩
  · simp [create_image, upload_image]
  · simp [create_image, upload_image, generate_thumbnail, hdec]
  · simp [create_image, upload_image, generate_thumbnail, hdec]
  · simp [create_image, upload_image, generate_thumbnail, hdec]

/-- Witness for C2: the four failure shapes at a concrete upload. -/
theorem create_image_failure_witness :
    (create_image false "g.png" exDecode true true ⟨[], []⟩ exEmptyDb exFile exData 4
        = ((⟨[], []⟩, exEmptyDb), .error (.storage "upload rejected")))
    ∧ (create_image true "g.png" exDecodeNone true true ⟨[], []⟩ exEmptyDb exFile exData 4
        = ((⟨[("g.png", exFile.content)], []⟩, exEmptyDb),
           .error (.storage "cannot identify image")))
    ∧ (create_image true "g.png" exDecode false true ⟨[], []⟩ exEmptyDb exFile exData 4
        = ((⟨[("g.png", exFile.content)], []⟩, exEmptyDb),
           .error (.storage "thumbnail upload rejected")))
    ∧ (create_image true "g.png" exDecode true false ⟨[], []⟩ exEmptyDb exFile exData 4
        = ((⟨[("g.png", exFile.content)],
             [("thumb_g.png", thumbBytes ⟨500, 300, some "PNG"⟩)]⟩, exEmptyDb),
           .error .dbError)) :=
  ⟨(create_image_failure_spec "g.png" exDecode true true ⟨[], []⟩ exEmptyDb
      exFile exData 4).1,
   (create_image_failure_spec "g.png" exDecodeNone true true ⟨[], []⟩ exEmptyDb
      exFile exData 4).2.1 rfl,
   (create_image_failure_spec "g.png" exDecode true true ⟨[], []⟩ exEmptyDb
      exFile exData 4).2.2.1 ⟨500, 300, some "PNG"⟩ rfl,
   (create_image_failure_spec "g.png" exDecode true true ⟨[], []⟩ exEmptyDb
      exFile exData 4).2.2.2 ⟨500, 300, some "PNG"⟩ rfl⟩

/-- Counterexample to C4 as stated: with the record for id 5 present in
the store, a metadata-store fault during the read (`dbFault = true`,
i.e. the driver call raising inside `get_image`) still surfaces as
`NotFound` — not as a 500-class metadata-store failure — because
`ImageService.get_image` catches every exception and re-raises
`ImageNotFoundException`. -/
theorem get_image_fault_counterexample :
    find_one exDb 5 = some exImg
    ∧ get_image true exDb 5 = .error .notFound :=
  ⟨rfl, rfl⟩

/-- C4 amended: every error `get_image` can return is `NotFound`: a
metadata-store fault during the read surfaces as `NotFound` exactly like
a genuinely absent record, and on a healthy database the error occurs
precisely when the record is absent. -/
theorem get_image_errors_notFound (dbFault : Bool) (db : DB)
    (image_id : Nat) :
    (∀ e, get_image dbFault db image_id = .error e → e = .notFound)
    ∧ (dbFault = true → get_image dbFault db image_id = .error .notFound)
    ∧ (dbFault = false →
        (get_image dbFault db image_id = .error .notFound
          ↔ find_one db image_id = none)) := by
  refine ⟨fun e he => ?_, fun h => ?_, fun h => ?_⟩
  · cases dbFault with
    | true =>
        simp only [get_image, if_true] at he
        exact (Except.error.inj he).symm
    | false =>
        cases hfo : find_one db image_id with
        | none =>
            simp only [get_image, hfo, Bool.false_eq_true, if_false] at he
            exact (Except.error.inj he).symm
        | some doc =>
            simp [get_image, hfo] at he
  · subst h
    rfl
  · subst h
    constructor
    · intro he
      cases hfo : find_one db image_id with
      | none => rfl
      | some doc => simp [get_image, hfo] at he
    · intro hfo
      simp [get_image, hfo]

/-- Witness for the amended C4: fault against a store holding id 5, and
the healthy-database characterisation at a missing id. -/
theorem get_image_errors_notFound_witness :
    AppError.notFound = AppError.notFound
    ∧ get_image true exDb 5 = .error .notFound
    ∧ (get_image false exDb 9 = .error .notFound ↔ find_one exDb 9 = none) :=
  ⟨(get_image_errors_notFound true exDb 5).1 .notFound rfl,
   (get_image_errors_notFound true exDb 5).2.1 rfl,
   (get_image_errors_notFound false exDb 9).2.2 rfl⟩

/-- C3: for every decodable image the thumbnailer computes
`scale = min(200/w, 200/h)`; when `scale >= 1` the output keeps the
original dimensions (no upscaling), otherwise the output is
`floor(w*scale) x floor(h*scale)`, hence at most 200 x 200 and with the
aspect ratio preserved within one pixel of rounding; undecodable bytes
fail with a thumbnail failure instead of producing output. -/
theorem resize_image_spec (decode : List Nat → Option PILImage)
    (image_bytes : List Nat) (fmt : Option String) :
    (decode image_bytes = none →
        resize_image decode image_bytes 200 200 fmt = .error .thumbnailFailure)
    ∧ (∀ img, decode image_bytes = some img →
        0 < img.width → 0 < img.height →
        ∃ out, resize_image decode image_bytes 200 200 fmt = .ok out
          ∧ (1 ≤ resize_ratio img.width img.height 200 200 →
              out.width = img.width ∧ out.height = img.height)
          ∧ (resize_ratio img.width img.height 200 200 < 1 →
              (out.width : ℤ)
                  = ⌊(img.width : ℚ) * resize_ratio img.width img.height 200 200⌋
              ∧ (out.height : ℤ)
                  = ⌊(img.height : ℚ) * resize_ratio img.width img.height 200 200⌋
              ∧ out.width ≤ 200 ∧ out.height ≤ 200
              ∧ out.width * img.height < (out.height + 1) * img.width
              ∧ out.height * img.width < (out.width + 1) * img.height)) := by
  refine ⟨fun h => by simp [resize_image, h], ?_⟩
  intro img hdec hw hh
  have hw0 : (0 : ℚ) < (img.width : ℚ) := by exact_mod_cast hw
  have hh0 : (0 : ℚ) < (img.height : ℚ) := by exact_mod_cast hh
  have hr0 : 0 ≤ resize_ratio img.width img.height 200 200 := by
    apply le_min
    · positivity
    · positivity
  by_cases hr : resize_ratio img.width img.height 200 200 < 1
  · refine ⟨⟨(⌊(img.width : ℚ) * resize_ratio img.width img.height 200 200⌋).toNat,
             (⌊(img.height : ℚ) * resize_ratio img.width img.height 200 200⌋).toNat,
             fmt.getD (img.format.getD "JPEG")⟩, ?_, ?_, ?_⟩
    · simp only [resize_image, hdec, if_pos hr]
    · intro h1
      exact absurd hr (not_lt.mpr h1)
    · intro h2
      have hfw0 : (0 : ℤ) ≤ ⌊(img.width : ℚ) * resize_ratio img.width img.height 200 200⌋ :=
        Int.floor_nonneg.mpr (mul_nonneg (le_of_lt hw0) hr0)
      have hfh0 : (0 : ℤ) ≤ ⌊(img.height : ℚ) * resize_ratio img.width img.height 200 200⌋ :=
        Int.floor_nonneg.mpr (mul_nonneg (le_of_lt hh0) hr0)
      have hnwz : (((⌊(img.width : ℚ) * resize_ratio img.width img.height 200 200⌋).toNat : ℤ))
          = ⌊(img.width : ℚ) * resize_ratio img.width img.height 200 200⌋ :=
        Int.toNat_of_nonneg hfw0
      have hnhz : (((⌊(img.height : ℚ) * resize_ratio img.width img.height 200 200⌋).toNat : ℤ))
          = ⌊(img.height : ℚ) * resize_ratio img.width img.height 200 200⌋ :=
        Int.toNat_of_nonneg hfh0
      have hwr : (img.width : ℚ) * resize_ratio img.width img.height 200 200 ≤ 200 := by
        have h1 : resize_ratio img.width img.height 200 200
            ≤ (200 : ℚ) / (img.width : ℚ) := min_le_left _ _
        calc (img.width : ℚ) * resize_ratio img.width img.height 200 200
            ≤ (img.width : ℚ) * ((200 : ℚ) / (img.width : ℚ)) :=
              mul_le_mul_of_nonneg_left h1 (le_of_lt hw0)
          _ = 200 := by field_simp
      have hhr : (img.height : ℚ) * resize_ratio img.width img.height 200 200 ≤ 200 := by
        have h1 : resize_ratio img.width img.height 200 200
            ≤ (200 : ℚ) / (img.height : ℚ) := min_le_right _ _
        calc (img.height : ℚ) * resize_ratio img.width img.height 200 200
            ≤ (img.height : ℚ) * ((200 : ℚ) / (img.height : ℚ)) :=
              mul_le_mul_of_nonneg_left h1 (le_of_lt hh0)
          _ = 200 := by field_simp
      have hwle : (⌊(img.width : ℚ) * resize_ratio img.width img.height 200 200⌋).toNat ≤ 200 := by
        rw [Int.toNat_le]
        calc ⌊(img.width : ℚ) * resize_ratio img.width img.height 200 200⌋
            ≤ ⌊(200 : ℚ)⌋ := Int.floor_mono hwr
          _ = 200 := by norm_num
      have hhle : (⌊(img.height : ℚ) * resize_ratio img.width img.height 200 200⌋).toNat ≤ 200 := by
        rw [Int.toNat_le]
        calc ⌊(img.height : ℚ) * resize_ratio img.width img.height 200 200⌋
            ≤ ⌊(200 : ℚ)⌋ := Int.floor_mono hhr
          _ = 200 := by norm_num
      have hnwq : (((⌊(img.width : ℚ) * resize_ratio img.width img.height 200 200⌋).toNat : ℚ))
          ≤ (img.width : ℚ) * resize_ratio img.width img.height 200 200 := by
        have h3 : ((((⌊(img.width : ℚ) * resize_ratio img.width img.height 200 200⌋).toNat : ℤ)) : ℚ)
            ≤ (img.width : ℚ) * resize_ratio img.width img.height 200 200 := by
          rw [hnwz]
          exact Int.floor_le _
        exact_mod_cast h3
      have hnhq : (((⌊(img.height : ℚ) * resize_ratio img.width img.height 200 200⌋).toNat : ℚ))
          ≤ (img.height : ℚ) * resize_ratio img.width img.height 200 200 := by
        have h3 : ((((⌊(img.height : ℚ) * resize_ratio img.width img.height 200 200⌋).toNat : ℤ)) : ℚ)
            ≤ (img.height : ℚ) * resize_ratio img.width img.height 200 200 := by
          rw [hnhz]
          exact Int.floor_le _
        exact_mod_cast h3
      have hnwq1 : (img.width : ℚ) * resize_ratio img.width img.height 200 200
          < (((⌊(img.width : ℚ) * resize_ratio img.width img.height 200 200⌋).toNat : ℚ)) + 1 := by
        have h3 : (img.width : ℚ) * resize_ratio img.width img.height 200 200
            < ((((⌊(img.width : ℚ) * resize_ratio img.width img.height 200 200⌋).toNat : ℤ)) : ℚ) + 1 := by
          rw [hnwz]
          exact Int.lt_floor_add_one _
        exact_mod_cast h3
      have hnhq1 : (img.height : ℚ) * resize_ratio img.width img.height 200 200
          < (((⌊(img.height : ℚ) * resize_ratio img.width img.height 200 200⌋).toNat : ℚ)) + 1 := by
        have h3 : (img.height : ℚ) * resize_ratio img.width img.height 200 200
            < ((((⌊(img.height : ℚ) * resize_ratio img.width img.height 200 200⌋).toNat : ℤ)) : ℚ) + 1 := by
          rw [hnhz]
          exact Int.lt_floor_add_one _
        exact_mod_cast h3
      refine ⟨hnwz, hnhz, hwle, hhle, ?_, ?_⟩
      · have hq : (((⌊(img.width : ℚ) * resize_ratio img.width img.height 200 200⌋).toNat : ℚ))
            * (img.height : ℚ)
            < ((((⌊(img.height : ℚ) * resize_ratio img.width img.height 200 200⌋).toNat : ℚ)) + 1)
              * (img.width : ℚ) := by
          calc (((⌊(img.width : ℚ) * resize_ratio img.width img.height 200 200⌋).toNat : ℚ))
              * (img.height : ℚ)
              ≤ ((img.width : ℚ) * resize_ratio img.width img.height 200 200) * (img.height : ℚ) :=
                mul_le_mul_of_nonneg_right hnwq (le_of_lt hh0)
            _ = ((img.height : ℚ) * resize_ratio img.width img.height 200 200) * (img.width : ℚ) := by
                ring
            _ < ((((⌊(img.height : ℚ) * resize_ratio img.width img.height 200 200⌋).toNat : ℚ)) + 1)
                * (img.width : ℚ) :=
                mul_lt_mul_of_pos_right hnhq1 hw0
        exact_mod_cast hq
      · have hq : (((⌊(img.height : ℚ) * resize_ratio img.width img.height 200 200⌋).toNat : ℚ))
            * (img.width : ℚ)
            < ((((⌊(img.width : ℚ) * resize_ratio img.width img.height 200 200⌋).toNat : ℚ)) + 1)
              * (img.height : ℚ) := by
          calc (((⌊(img.height : ℚ) * resize_ratio img.width img.height 200 200⌋).toNat : ℚ))
              * (img.width : ℚ)
              ≤ ((img.height : ℚ) * resize_ratio img.width img.height 200 200) * (img.width : ℚ) :=
                mul_le_mul_of_nonneg_right hnhq (le_of_lt hw0)
            _ = ((img.width : ℚ) * resize_ratio img.width img.height 200 200) * (img.height : ℚ) := by
                ring
            _ < ((((⌊(img.width : ℚ) * resize_ratio img.width img.height 200 200⌋).toNat : ℚ)) + 1)
                * (img.height : ℚ) :=
                mul_lt_mul_of_pos_right hnwq1 hh0
        exact_mod_cast hq
  · refine ⟨⟨img.width, img.height, fmt.getD (img.format.getD "JPEG")⟩, ?_, ?_, ?_⟩
    · simp only [resize_image, hdec, if_neg hr]
    · intro h1
      exact ⟨rfl, rfl⟩
    · intro h2
      exact absurd h2 hr

/-- Witness for C3: undecodable bytes, a 500 x 300 image (scaled to
200 x 120), and a 150 x 100 image (returned unscaled). -/
theorem resize_image_spec_witness :
    (resize_image exDecodeNone [] 200 200 none = .error .thumbnailFailure)
    ∧ (∃ out, resize_image exDecode [] 200 200 none = .ok out
        ∧ (1 ≤ resize_ratio 500 300 200 200 →
            out.width = 500 ∧ out.height = 300)
        ∧ (resize_ratio 500 300 200 200 < 1 →
            (out.width : ℤ) = ⌊((500 : ℕ) : ℚ) * resize_ratio 500 300 200 200⌋
            ∧ (out.height : ℤ) = ⌊((300 : ℕ) : ℚ) * resize_ratio 500 300 200 200⌋
            ∧ out.width ≤ 200 ∧ out.height ≤ 200
            ∧ out.width * 300 < (out.height + 1) * 500
            ∧ out.height * 500 < (out.width + 1) * 300))
    ∧ (∃ out, resize_image exDecodeSmall [] 200 200 none = .ok out
        ∧ (1 ≤ resize_ratio 150 100 200 200 →
            out.width = 150 ∧ out.height = 100)
        ∧ (resize_ratio 150 100 200 200 < 1 →
            (out.width : ℤ) = ⌊((150 : ℕ) : ℚ) * resize_ratio 150 100 200 200⌋
            ∧ (out.height : ℤ) = ⌊((100 : ℕ) : ℚ) * resize_ratio 150 100 200 200⌋
            ∧ out.width ≤ 200 ∧ out.height ≤ 200
            ∧ out.width * 100 < (out.height + 1) * 150
            ∧ out.height * 150 < (out.width + 1) * 100)) :=
  ⟨(resize_image_spec exDecodeNone [] none).1 rfl,
   (resize_image_spec exDecode [] none).2 ⟨500, 300, some "PNG"⟩ rfl
     (by decide) (by decide),
   (resize_image_spec exDecodeSmall [] none).2 ⟨150, 100, none⟩ rfl
     (by decide) (by decide)⟩

end Thirteenk
